import Mathlib

/-!
Verification of the Under5-Mortality-Model dashboard (`src/app.py`).

The program is a Dash/Flask app: at module load it downloads two pickle
artifacts if absent, deserializes them with try/except fallbacks, builds a
static layout, and registers one callback `update_chart` that invokes the
loaded model and renders a Plotly figure.  We embed the Python values that
matter as a small `PyVal` universe (the loaded artifacts), figures as a
record of the fields the code sets, and each piece of module-level logic as
a Lean function.  Machine floats in the source are modelled as `ℚ`.
-/

/-- Universe of the Python values that can sit in the two artifact globals:
`None`, a list, a dict, a pandas DataFrame (columns + row count), or a model
object exposing `predict` (which may raise, modelled as `Except`). -/
inductive PyVal where
  | pynone : PyVal
  | pylist : List PyVal → PyVal
  | pydict : List (String × PyVal) → PyVal
  | pydataframe : List String → Nat → PyVal
  | pymodel : (List (List String) → Except String (List ℚ)) → PyVal

/-- Lines 13-17: the Google Drive id of `feature_importances.pkl`. -/
def FEATURES_FILE_ID : String := "1Wp4NOmMveYMql2h8GVfyx0J8pmNU7pkQ"

/-- Lines 13-17: the Google Drive id of `final_model.pkl`. -/
def MODEL_FILE_ID : String := "1sxZBckDWmumOd7Yilg4_0oudNlqLOWZu"

/-- Line 16: local path of the feature-importance artifact. -/
def FEATURES_PATH : String := "feature_importances.pkl"

/-- Line 17: local path of the model artifact. -/
def MODEL_PATH : String := "final_model.pkl"

/-- A filesystem is modelled by the list of paths that exist. -/
abbrev FS := List String

/-- `os.path.exists` on the modelled filesystem. -/
def pathExists (fs : FS) (p : String) : Bool := fs.contains p

/-- Line 24: the download URL built from a Drive file id. -/
def gdrive_url (file_id : String) : String :=
  "https://drive.google.com/uc?id=" ++ file_id

/-- The external `gdown.download` collaborator: given a url and a destination
path it transforms the filesystem. -/
structure Downloader where
  run : String → String → FS → FS

/-- Line 22: the list of (file id, path) pairs the download loop iterates. -/
def download_files : List (String × String) :=
  [(FEATURES_FILE_ID, FEATURES_PATH), (MODEL_FILE_ID, MODEL_PATH)]

/-- Lines 22-26, one iteration: if the path exists do nothing, else call
`gdown.download`.  The second component records the paths downloaded
(mirroring the `print` on line 25). -/
def download_step (d : Downloader) (st : FS × List String)
    (idpath : String × String) : FS × List String :=
  if pathExists st.1 idpath.2 then st
  else (d.run (gdrive_url idpath.1) idpath.2 st.1, st.2 ++ [idpath.2])

/-- Lines 22-26: the module-level download loop over both artifacts. -/
def download_loop (d : Downloader) (fs : FS) : FS × List String :=
  download_files.foldl (download_step d) (fs, [])

/-- Lines 31-37: `try: feature_importances = pickle.load(f) ... except:
feature_importances = []`.  The deserialization outcome is the argument;
the result pairs the bound global with the diagnostic printed. -/
def load_feature_importances (r : Except String PyVal) : PyVal × List String :=
  match r with
  | Except.ok v => (v, ["✅ Feature importances loaded."])
  | Except.error e => (PyVal.pylist [], ["❌ Error loading feature importances: " ++ e])

/-- Lines 47-53: `try: model = pickle.load(f) ... except: model = None`. -/
def load_model (r : Except String PyVal) : PyVal × List String :=
  match r with
  | Except.ok v => (v, ["✅ Model loaded."])
  | Except.error e => (PyVal.pynone, ["❌ Error loading model: " ++ e])

/-- Lines 40-45: the hard-coded Kenya feature list shown in the dropdown. -/
def kenya_features : List String :=
  ["num__child_death_history", "cat__Region_Kwale",
   "num__Weight/Age standard deviation (new WHO)",
   "num__Childs height in centimeters (1 decimal)", "cat__Region_Isiolo",
   "cat__Region_Laikipia", "cat__Region_Mombasa", "cat__Region_Nairobi",
   "cat__Region_Baringo", "num__Childs weight in kilograms (1 decimal)"]

/-- A Plotly layout annotation as the code builds it (text + font). -/
structure Annot where
  text : String
  fontSize : Nat
  fontColor : String
deriving DecidableEq, Repr

/-- A Plotly bar trace as the code builds it (lines 217-223). -/
structure Bar where
  x : List String
  y : List ℚ
  markerColor : String
  text : List String
deriving DecidableEq, Repr

/-- The figure fields `update_chart` sets on its three return paths. -/
structure Figure where
  titleText : Option String
  xaxisVisible : Bool
  yaxisVisible : Bool
  annotations : List Annot
  data : List Bar
  yaxisTitle : Option String
deriving DecidableEq, Repr

/-- Lines 189-199: the placeholder figure returned before any valid input. -/
def waitingFigure : Figure :=
  { titleText := some "Select features + target, then click Predict"
    xaxisVisible := false
    yaxisVisible := false
    annotations := [{ text := "Waiting for input...", fontSize := 16, fontColor := "#888" }]
    data := []
    yaxisTitle := none }

/-- Lines 204-212: the figure returned when `model.predict` raises `e`. -/
def errorFigure (e : String) : Figure :=
  { titleText := some "Error"
    xaxisVisible := true
    yaxisVisible := true
    annotations := [{ text := e, fontSize := 14, fontColor := "red" }]
    data := []
    yaxisTitle := none }

/-- The `AttributeError` message Python raises for `None.predict`. -/
def noneAttrError : String :=
  "\x27NoneType\x27 object has no attribute \x27predict\x27"

/-- The `AttributeError` message for `.predict` on a non-model object. -/
def objAttrError : String := "object has no attribute \x27predict\x27"

/-- Line 221: Python `f-string` formatting `pred:.2f`, modelled as rounding
to two decimals. -/
def fmt2 (q : ℚ) : String :=
  let n : Int := round (q * 100)
  let a : Nat := n.natAbs
  let sign : String := if n < 0 then "-" else ""
  let fracStr : String :=
    if a % 100 < 10 then "0" ++ toString (a % 100) else toString (a % 100)
  sign ++ toString (a / 100) ++ "." ++ fracStr

/-- Line 202: `model.predict([features_selected]).tolist()[0]`, with every
Python exception on that line routed into `Except.error`. -/
def tryPredict (model : PyVal) (features_selected : List String) : Except String ℚ :=
  match model with
  | PyVal.pymodel f =>
    match f [features_selected] with
    | Except.error e => Except.error e
    | Except.ok [] => Except.error "list index out of range"
    | Except.ok (p :: _) => Except.ok p
  | PyVal.pynone => Except.error noneAttrError
  | _ => Except.error objAttrError

/-- Python truthiness of the Dash multi-dropdown value: `not
features_selected` is true when it is `None` or the empty list. -/
def falsyList (v : Option (List String)) : Bool :=
  match v with
  | none => true
  | some [] => true
  | some (_ :: _) => false

/-- Python truthiness of the target dropdown value: `not target_value` is
true when it is `None` or the empty string. -/
def falsyStr (v : Option String) : Bool :=
  match v with
  | none => true
  | some s => s.isEmpty

/-- Lines 187-232: the Dash callback.  Takes the loaded `model` global and
the three callback arguments; returns the figure. -/
def update_chart (model : PyVal) (n_clicks : Nat)
    (features_selected : Option (List String)) (target_value : Option String) :
    Figure :=
  if n_clicks = 0 ∨ falsyList features_selected = true ∨ falsyStr target_value = true then
    waitingFigure
  else
    let fs : List String := features_selected.getD []
    let tv : String := target_value.getD ""
    match tryPredict model fs with
    | Except.error e => errorFigure e
    | Except.ok pred =>
      let color : String := if pred > 0.5 then "red" else "green"
      let icon : String := if pred > 0.5 then "⚠️" else "✅"
      { titleText := some ("Prediction for " ++ tv)
        xaxisVisible := true
        yaxisVisible := true
        annotations := []
        data := [{ x := [icon ++ " " ++ tv], y := [pred],
                   markerColor := color, text := [fmt2 pred] }]
        yaxisTitle := some "Predicted Risk" }

/-- Lines 60-91: the landing-page HTML returned by the `/` route. -/
def index_page : String :=
  "\n    <div style=\"\n        text-align:center; \n        font-family:sans-serif; \n        height: 100vh;\n        background-image: url(\x27https://i.pinimg.com/1200x/97/a9/1c/97a91c944845237ef509452fec78863f.jpg\x27);\n        background-size: cover;\n        background-position: center;\n        display: flex;\n        flex-direction: column;\n        justify-content: center;\n        align-items: center;\n        color: white;\n        text-shadow: 1px 1px 5px rgba(0,0,0,0.7);\n    \">\n        <h1 style=\x27font-size: 4em;\x27>👶 Afya-Toto</h1>\n        <p style=\x27font-size: 1.5em;\x27>Under-5 Mortality Risk Prediction Tool - Kenya</p>\n        <a href=\x27/dashboard/\x27 style=\x27\n            display:inline-block;\n            margin-top:25px;\n            padding:15px 30px;\n            background:#007BFF;\n            color:white;\n            border-radius:10px;\n            text-decoration:none;\n            font-weight:bold;\n            font-size: 18px;\n        \x27>Go to Dashboard</a>\n    </div>\n    "

/-- A dropdown option (label/value pair) of the Dash layout. -/
structure DropdownOption where
  label : String
  value : String
deriving DecidableEq, Repr

/-- The pieces of `app.layout` (lines 104-177) that carry data: the two
dropdowns and the predict button. -/
structure Layout where
  featureOptions : List DropdownOption
  targetOptions : List DropdownOption
  buttonLabel : String
  buttonInitialClicks : Nat
deriving DecidableEq, Repr

/-- Lines 104-177: `app.layout`, built once at module scope from literals. -/
def app_layout : Layout :=
  { featureOptions := kenya_features.map (fun f => { label := f, value := f })
    targetOptions :=
      [{ label := "Under-5", value := "Under5" },
       { label := "Infant", value := "Infant" },
       { label := "Neonatal", value := "Neonatal" }]
    buttonLabel := "👶 Predict"
    buttonInitialClicks := 0 }

/-- The two module globals bound by the artifact loaders. -/
structure LoadedState where
  feature_importances : PyVal
  model : PyVal

/-- The `/` route handler (lines 60-91) as a function of the loaded state
it closes over. -/
def serve_index (_st : LoadedState) : String := index_page

/-- The `/dashboard/` layout as a function of the loaded state. -/
def serve_layout (_st : LoadedState) : Layout := app_layout

/-- The callback as served: it reads the `model` global out of the loaded
state (line 202) and nothing else. -/
def serve_chart (st : LoadedState) (n_clicks : Nat)
    (features_selected : Option (List String)) (target_value : Option String) :
    Figure :=
  update_chart st.model n_clicks features_selected target_value

/-- Line 238: the default port. -/
def DEFAULT_PORT : Nat := 8050

/-- ASCII lower-casing of a character (the fragment of Python `str.lower`
the target names exercise). -/
def pyLowerChar (c : Char) : Char :=
  if 65 ≤ c.toNat ∧ c.toNat ≤ 90 then Char.ofNat (c.toNat + 32) else c

/-- ASCII lower-casing of a string, modelling Python `str.lower()`. -/
def pyLower (s : String) : String := String.mk (s.data.map pyLowerChar)

/-- The numeric value of an ASCII digit character, if it is one. -/
def digitVal (c : Char) : Option Nat :=
  if 48 ≤ c.toNat ∧ c.toNat ≤ 57 then some (c.toNat - 48) else none

/-- Parse a nonempty digit string into a natural number. -/
def parseDigits : List Char → Option Nat → Option Nat
  | [], acc => acc
  | c :: cs, acc =>
    match digitVal c with
    | some d => parseDigits cs (some (acc.getD 0 * 10 + d))
    | none => none

/-- Python `int(s)` on a decimal literal: optional minus sign then digits;
`none` models the `ValueError` raised otherwise. -/
def pyIntParse (s : String) : Option Int :=
  match s.data with
  | [] => none
  | c :: cs =>
    if c = Char.ofNat 45 then (parseDigits cs none).map (fun n => -(n : Int))
    else (parseDigits (c :: cs) none).map (fun n => (n : Int))

/-- Lines 237-238: `port = int(os.environ.get("PORT", 8050))`.  The argument
is the value of the `PORT` environment variable, if set; `Except.error`
models the uncaught `ValueError` from `int`. -/
def main_port (envPORT : Option String) : Except String Int :=
  match envPORT with
  | none => Except.ok (Int.ofNat DEFAULT_PORT)
  | some s =>
    match pyIntParse s with
    | some k => Except.ok k
    | none => Except.error ("invalid literal for int() with base 10: " ++ s)

/-- Line 239: the host the server binds to. -/
def main_host : String := "0.0.0.0"

/-- Modelled from the spec: `src/` contains only the chart variant of the
dashboard, so the other variant defining `topFeatures` is missing from the
repository snapshot.  A row of its feature-importance table per spec §3:
Target, Feature, Importance. -/
structure FRow where
  target : String
  feature : String
  importance : ℚ
deriving DecidableEq, Repr

/-- Modelled from the spec (§4.3): case-insensitive exact match of a row
against a user-supplied target name. -/
def matchesTarget (t : String) (r : FRow) : Bool :=
  pyLower r.target == pyLower t

/-- Ranking relation of the spec (§4.3): descending importance. -/
def impGE (a b : FRow) : Prop := b.importance ≤ a.importance

instance : DecidableRel impGE := fun a b => inferInstanceAs (Decidable (b.importance ≤ a.importance))

instance : IsTotal FRow impGE := ⟨fun a b => (le_total b.importance a.importance).imp id id⟩

instance : IsTrans FRow impGE := ⟨fun _ _ _ h1 h2 => le_trans h2 h1⟩

/-- Modelled from the spec (§4.3): the rows matching the target, sorted by
descending importance with the underlying stable-sort order on ties. -/
def topFeaturesRows (table : List FRow) (t : String) : List FRow :=
  List.insertionSort impGE (table.filter (matchesTarget t))

/-- Modelled from the spec (§4.3): `topFeatures(target, n)` — filter rows
case-insensitively by target, rank by descending importance, truncate to
`n`, return the feature names. -/
def topFeatures (table : List FRow) (t : String) (n : Nat) : List String :=
  ((topFeaturesRows table t).map FRow.feature).take n

/-- The spec §8 example table, used as concrete witness data. -/
def exampleTable : List FRow :=
  [{ target := "Under5", feature := "A", importance := mkRat 9 10 },
   { target := "Under5", feature := "B", importance := mkRat 1 2 },
   { target := "Infant", feature := "C", importance := mkRat 7 10 }]

/-- A concrete downloader for witnesses: downloading creates exactly the
destination path. -/
def consDownloader : Downloader := { run := fun _ p s => p :: s }

/-- A concrete model for witnesses: always predicts 0.73. -/
def const73Model : List (List String) → Except String (List ℚ) :=
  fun _ => Except.ok [73/100]

/-- A concrete always-raising model for witnesses. -/
def raisingModel : List (List String) → Except String (List ℚ) :=
  fun _ => Except.error "could not convert string to float"

/-- Helper: the guard on line 188 is false exactly when the button was
clicked, some feature is selected and a target is chosen. -/
theorem chart_guard_neg (n : Nat) (fs : List String) (t : String)
    (hn : n ≠ 0) (hfs : fs ≠ []) (ht : t ≠ "") :
    ¬(n = 0 ∨ falsyList (some fs) = true ∨ falsyStr (some t) = true) := by
  push_neg
  refine ⟨hn, ?_, ?_⟩
  · cases fs with
    | nil => exact absurd rfl hfs
    | cons a l => simp [falsyList]
  · simp only [falsyStr, ne_eq, ← String.isEmpty_iff] at ht ⊢
    simpa using ht

/-- C1 (counterexample): with the model global `None`, a click with a
selected feature and target yields the error figure carrying the
`AttributeError` text, not the sentinel string "Model not loaded". -/
theorem c1_counterexample :
    update_chart PyVal.pynone 1 (some ["num__child_death_history"]) (some "Under5") =
      errorFigure noneAttrError ∧
    (update_chart PyVal.pynone 1 (some ["num__child_death_history"])
        (some "Under5")).annotations.map Annot.text ≠ ["Model not loaded"] := by
  constructor
  · rfl
  · decide

/-- C1 (amended): for every prediction request made while the model artifact
is absent, the callback attempts the call on the nil placeholder, catches
the resulting `AttributeError`, and returns an error figure embedding that
exception text in a chart annotation — it neither throws nor produces the
"Model not loaded" sentinel. -/
theorem c1_missing_model_error_figure (n : Nat) (fs : List String) (t : String)
    (hn : n ≠ 0) (hfs : fs ≠ []) (ht : t ≠ "") :
    update_chart PyVal.pynone n (some fs) (some t) = errorFigure noneAttrError ∧
    (update_chart PyVal.pynone n (some fs) (some t)).annotations.map Annot.text =
      [noneAttrError] := by
  have hg := chart_guard_neg n fs t hn hfs ht
  constructor
  · unfold update_chart
    rw [if_neg hg]
    rfl
  · unfold update_chart
    rw [if_neg hg]
    rfl

/-- C1 witness: the amended behaviour at a concrete input. -/
theorem c1_missing_model_error_figure_witness :
    update_chart PyVal.pynone 1 (some ["cat__Region_Kwale"]) (some "Infant") =
      errorFigure noneAttrError ∧
    (update_chart PyVal.pynone 1 (some ["cat__Region_Kwale"])
        (some "Infant")).annotations.map Annot.text = [noneAttrError] :=
  c1_missing_model_error_figure 1 ["cat__Region_Kwale"] "Infant"
    (by decide) (by decide) (by decide)

/-- C3 (counterexample): the fallback the loader actually binds is `None`
for the model and the empty Python list for the feature importances — not
an empty mapping, and not an empty three-column table. -/
theorem c3_counterexample :
    (load_model (Except.error "pickle data was truncated")).1 ≠ PyVal.pydict [] ∧
    (load_feature_importances (Except.error "pickle data was truncated")).1 ≠
      PyVal.pydataframe ["Target", "Feature", "Importance"] 0 := by
  constructor
  · intro h
    exact PyVal.noConfusion h
  · intro h
    exact PyVal.noConfusion h

/-- C3 (amended): on every deserialization failure the loader catches the
error, logs a diagnostic naming it, and substitutes the code's defaults —
the nil placeholder for the model, the empty list for the feature
importances — so startup continues in a degraded state (the loaders are
total functions). -/
theorem c3_loader_fallbacks (e : String) :
    load_feature_importances (Except.error e) =
      (PyVal.pylist [], ["❌ Error loading feature importances: " ++ e]) ∧
    load_model (Except.error e) = (PyVal.pynone, ["❌ Error loading model: " ++ e]) :=
  ⟨rfl, rfl⟩

/-- C4: with a loaded model whose prediction is `p`, the rendered bar is
colored red with the warning icon when `p > 0.5`, and green with the check
icon when `p ≤ 0.5`. -/
theorem c4_chart_color_icon (f : List (List String) → Except String (List ℚ))
    (n : Nat) (fs : List String) (t : String) (p : ℚ) (rest : List ℚ)
    (hn : n ≠ 0) (hfs : fs ≠ []) (ht : t ≠ "")
    (hf : f [fs] = Except.ok (p :: rest)) :
    (update_chart (PyVal.pymodel f) n (some fs) (some t)).data.map Bar.markerColor =
      [if p > 0.5 then "red" else "green"] ∧
    (update_chart (PyVal.pymodel f) n (some fs) (some t)).data.map Bar.x =
      [[(if p > 0.5 then "⚠️" else "✅") ++ " " ++ t]] := by
  have hg := chart_guard_neg n fs t hn hfs ht
  unfold update_chart
  rw [if_neg hg]
  simp [tryPredict, hf]

/-- C4 witness: a model constantly predicting 0.73 renders a red bar with
the warning icon. -/
theorem c4_chart_color_icon_witness :
    (update_chart (PyVal.pymodel const73Model) 1 (some ["num__child_death_history"])
        (some "Under5")).data.map Bar.markerColor = ["red"] ∧
    (update_chart (PyVal.pymodel const73Model) 1 (some ["num__child_death_history"])
        (some "Under5")).data.map Bar.x = [["⚠️ Under5"]] := by
  have h := c4_chart_color_icon const73Model 1 ["num__child_death_history"] "Under5"
    (73/100) [] (by decide) (by decide) (by decide) rfl
  have hp : ((73:ℚ)/100 > 0.5) := by norm_num
  rw [h.1, h.2, if_pos hp, if_pos hp]
  constructor
  · rfl
  · rfl

/-- C5: every failure the model raises during prediction surfaces as the
raw error text embedded in an annotation of the returned figure; the
callback itself is a total function, so no exception escapes as a hard
failure. -/
theorem c5_model_failure_in_annotation (f : List (List String) → Except String (List ℚ))
    (n : Nat) (fs : List String) (t e : String)
    (hn : n ≠ 0) (hfs : fs ≠ []) (ht : t ≠ "")
    (hf : f [fs] = Except.error e) :
    update_chart (PyVal.pymodel f) n (some fs) (some t) = errorFigure e ∧
    e ∈ (update_chart (PyVal.pymodel f) n (some fs) (some t)).annotations.map
      Annot.text := by
  have hg := chart_guard_neg n fs t hn hfs ht
  have h1 : update_chart (PyVal.pymodel f) n (some fs) (some t) = errorFigure e := by
    unfold update_chart
    rw [if_neg hg]
    simp [tryPredict, hf]
  refine ⟨h1, ?_⟩
  rw [h1]
  simp [errorFigure]

/-- C5 witness: a model raising a conversion error at a concrete input. -/
theorem c5_model_failure_in_annotation_witness :
    update_chart (PyVal.pymodel raisingModel) 1 (some ["cat__Region_Nairobi"])
        (some "Neonatal") = errorFigure "could not convert string to float" ∧
    "could not convert string to float" ∈
      (update_chart (PyVal.pymodel raisingModel) 1 (some ["cat__Region_Nairobi"])
        (some "Neonatal")).annotations.map Annot.text :=
  c5_model_failure_in_annotation raisingModel 1 ["cat__Region_Nairobi"] "Neonatal"
    "could not convert string to float" (by decide) (by decide) (by decide) rfl

/-- C10: whenever the button has not been clicked, or the feature selection
is empty or absent, or no target is selected, the callback returns the
"Waiting for input..." placeholder — for every model value, so the model is
never consulted on this path. -/
theorem c10_waiting_placeholder (m : PyVal) (n : Nat)
    (fs : Option (List String)) (t : Option String)
    (h : n = 0 ∨ falsyList fs = true ∨ falsyStr t = true) :
    update_chart m n fs t = waitingFigure := by
  unfold update_chart
  rw [if_pos h]

/-- C10 witness: zero clicks at a concrete input. -/
theorem c10_waiting_placeholder_witness :
    update_chart PyVal.pynone 0 (some ["num__child_death_history"]) (some "Under5") =
      waitingFigure :=
  c10_waiting_placeholder PyVal.pynone 0 (some ["num__child_death_history"])
    (some "Under5") (Or.inl rfl)

/-- Helper: when both artifact paths already exist the download loop does
nothing and downloads nothing. -/
theorem download_loop_skips (d : Downloader) (s : FS)
    (h1 : pathExists s FEATURES_PATH = true) (h2 : pathExists s MODEL_PATH = true) :
    download_loop d s = (s, []) := by
  simp [download_loop, download_files, download_step, h1, h2]

/-- C6: each artifact is downloaded exactly when its local path is absent
and skipped silently when present; and assuming the download collaborator
creates exactly its destination path, rerunning the loop after it has run
performs no download and leaves the filesystem unchanged. -/
theorem c6_download_only_if_missing (d : Downloader) (fs : FS)
    (hcreate : ∀ url p s, pathExists (d.run url p s) p = true)
    (hframe : ∀ url p s q, q ≠ p → pathExists (d.run url p s) q = pathExists s q) :
    (FEATURES_PATH ∈ (download_loop d fs).2 ↔ pathExists fs FEATURES_PATH = false) ∧
    (MODEL_PATH ∈ (download_loop d fs).2 ↔ pathExists fs MODEL_PATH = false) ∧
    download_loop d (download_loop d fs).1 = ((download_loop d fs).1, []) := by
  have hFM : FEATURES_PATH ≠ MODEL_PATH := by decide
  have hMF : MODEL_PATH ≠ FEATURES_PATH := by decide
  have hstep2 : pathExists (d.run (gdrive_url FEATURES_FILE_ID) FEATURES_PATH fs)
      MODEL_PATH = pathExists fs MODEL_PATH := hframe _ _ _ _ hMF
  cases hF : pathExists fs FEATURES_PATH with
  | true =>
    cases hM : pathExists fs MODEL_PATH with
    | true =>
      have hloop : download_loop d fs = (fs, []) := download_loop_skips d fs hF hM
      rw [hloop]
      refine ⟨?_, ?_, ?_⟩
      · simp [hF]
      · simp [hM]
      · exact download_loop_skips d fs hF hM
    | false =>
      have hloop : download_loop d fs =
          (d.run (gdrive_url MODEL_FILE_ID) MODEL_PATH fs, [ MODEL_PATH ]) := by
        simp [download_loop, download_files, download_step, hF, hM]
      rw [hloop]
      refine ⟨?_, ?_, ?_⟩
      · simp [hF, hFM]
      · simp [hM]
      · exact download_loop_skips d _ (by rw [hframe _ _ _ _ hFM]; exact hF)
          (hcreate _ _ _)
  | false =>
    cases hM : pathExists fs MODEL_PATH with
    | true =>
      have hloop : download_loop d fs =
          (d.run (gdrive_url FEATURES_FILE_ID) FEATURES_PATH fs, [FEATURES_PATH]) := by
        simp [download_loop, download_files, download_step, hF, hstep2, hM]
      rw [hloop]
      refine ⟨?_, ?_, ?_⟩
      · simp [hF]
      · simp [hM, hMF]
      · exact download_loop_skips d _ (hcreate _ _ _) (by rw [hstep2]; exact hM)
    | false =>
      have hloop : download_loop d fs =
          (d.run (gdrive_url MODEL_FILE_ID) MODEL_PATH
             (d.run (gdrive_url FEATURES_FILE_ID) FEATURES_PATH fs),
           [FEATURES_PATH, MODEL_PATH]) := by
        simp [download_loop, download_files, download_step, hF, hstep2, hM]
      rw [hloop]
      refine ⟨?_, ?_, ?_⟩
      · simp [hF]
      · simp [hM]
      · exact download_loop_skips d _
          (by rw [hframe _ _ _ _ hFM]; exact hcreate _ _ _) (hcreate _ _ _)

/-- C6 witness: the loop on an empty filesystem with a downloader that
creates its destination path. -/
theorem c6_download_only_if_missing_witness :
    (FEATURES_PATH ∈ (download_loop consDownloader []).2 ↔
      pathExists [] FEATURES_PATH = false) ∧
    (MODEL_PATH ∈ (download_loop consDownloader []).2 ↔
      pathExists [] MODEL_PATH = false) ∧
    download_loop consDownloader (download_loop consDownloader []).1 =
      ((download_loop consDownloader []).1, []) :=
  c6_download_only_if_missing consDownloader []
    (by
      intro url p s
      simp [consDownloader, pathExists])
    (by
      intro url p s q h
      simp [consDownloader, pathExists, List.contains_cons, h])

/-- C8: the listening port is the value of `PORT` when it is set (to a
literal `int` accepts), defaults to 8050 when it is unset, and the server
binds to all interfaces. -/
theorem c8_port_selection (s : String) (k : Int) (hs : pyIntParse s = some k) :
    main_port none = Except.ok 8050 ∧
    main_port (some s) = Except.ok k ∧
    main_host = "0.0.0.0" := by
  refine ⟨rfl, ?_, rfl⟩
  simp [main_port, hs]

/-- C8 witness: `PORT=9000` selects port 9000. -/
theorem c8_port_selection_witness :
    main_port none = Except.ok 8050 ∧
    main_port (some "9000") = Except.ok 9000 ∧
    main_host = "0.0.0.0" :=
  c8_port_selection "9000" 9000 (by decide)

/-- C9: the loaded feature-importance table has no effect on any served
output — for any two values of that global and the same model, the landing
page, the dashboard layout, and every callback result coincide. -/
theorem c9_feature_importances_no_influence (fi fi2 m : PyVal) (n : Nat)
    (fs : Option (List String)) (t : Option String) :
    serve_index { feature_importances := fi, model := m } =
      serve_index { feature_importances := fi2, model := m } ∧
    serve_layout { feature_importances := fi, model := m } =
      serve_layout { feature_importances := fi2, model := m } ∧
    serve_chart { feature_importances := fi, model := m } n fs t =
      serve_chart { feature_importances := fi2, model := m } n fs t :=
  ⟨rfl, rfl, rfl⟩

/-- C2 (spec-modelled): for every target present in the table and every n,
`topFeatures target n` has at most n entries, its entries are ranked by
descending importance, and when fewer than n rows match it returns all
matching rows' feature names. -/
theorem c2_topFeatures_spec (table : List FRow) (t : String) (n : Nat)
    (hpresent : ∃ r ∈ table, matchesTarget t r = true) :
    (topFeatures table t n).length ≤ n ∧
    List.Sorted (fun a b => a ≥ b)
      (((topFeaturesRows table t).take n).map FRow.importance) ∧
    ((table.filter (matchesTarget t)).length < n →
      (topFeatures table t n).Perm
        ((table.filter (matchesTarget t)).map FRow.feature)) := by
  refine ⟨?_, ?_, ?_⟩
  · simp only [topFeatures, List.length_take]
    omega
  · exact List.Pairwise.map FRow.importance (fun a b h => h)
      (List.Pairwise.sublist (List.take_sublist n _)
        (List.sorted_insertionSort impGE _))
  · intro hlt
    have hlen : ((topFeaturesRows table t).map FRow.feature).length ≤ n := by
      simp only [List.length_map, topFeaturesRows, List.length_insertionSort,
        List.length_filter_le]
      omega
    simp only [topFeatures]
    rw [List.take_of_length_le hlen]
    exact (List.perm_insertionSort impGE _).map FRow.feature

/-- C2 witness: the spec §8 example table at target "under5", n = 1. -/
theorem c2_topFeatures_spec_witness :
    (topFeatures exampleTable "under5" 1).length ≤ 1 ∧
    List.Sorted (fun a b => a ≥ b)
      (((topFeaturesRows exampleTable "under5").take 1).map FRow.importance) ∧
    ((exampleTable.filter (matchesTarget "under5")).length < 1 →
      (topFeatures exampleTable "under5" 1).Perm
        ((exampleTable.filter (matchesTarget "under5")).map FRow.feature)) :=
  c2_topFeatures_spec exampleTable "under5" 1 (by decide)

/-- C7 (spec-modelled): `topFeatures` is case-insensitive in its target
argument — target strings equal up to ASCII case give identical results. -/
theorem c7_topFeatures_case_insensitive (table : List FRow) (t1 t2 : String)
    (n : Nat) (h : pyLower t1 = pyLower t2) :
    topFeatures table t1 n = topFeatures table t2 n := by
  have hmt : matchesTarget t1 = matchesTarget t2 := by
    funext r
    simp [matchesTarget, h]
  simp [topFeatures, topFeaturesRows, hmt]

/-- C7 witness: "Under5" and "under5" agree on the example table. -/
theorem c7_topFeatures_case_insensitive_witness :
    topFeatures exampleTable "Under5" 1 = topFeatures exampleTable "under5" 1 :=
  c7_topFeatures_case_insensitive exampleTable "Under5" "under5" 1 (by decide)

/-- Sanity: the spec §8 end-to-end example values for the modelled
`topFeatures`. -/
theorem topFeatures_example_eval :
    topFeatures exampleTable "under5" 1 = ["A"] ∧
    topFeatures exampleTable "Neonatal" 5 = [] := by
  decide
